import Mathlib

/-
Verification development for the Inficon MPH residual gas analyzer driver
(drvInficon.cpp / drvInficon.h).  The definitions below are a shallow
embedding of the protocol and session engine of the driver: the transport
read disposition, the HTTP-like response framing, the per-endpoint JSON
decoding of scan data, the scan acquisition state machine and the tiered
poll scheduler.  Machine strings are modelled as lists of characters,
doubles and floats as rationals, and the nlohmann JSON values as an
inductive type mirroring the accesses the driver performs.
-/

namespace Inficon

/-- Status codes of the asyn framework used by the driver, mirroring
asynStatus in asynDriver.h: asynSuccess, asynTimeout, asynOverflow,
asynError, asynDisconnected, asynDisabled. -/
inductive AsynStatus where
  | asynSuccess : AsynStatus
  | asynTimeout : AsynStatus
  | asynOverflow : AsynStatus
  | asynError : AsynStatus
  | asynDisconnected : AsynStatus
  | asynDisabled : AsynStatus
deriving DecidableEq, Repr

/-- Internal driver state enumeration from drvInficon.h (mainState_t);
the LEAKCEHCK spelling follows the source. -/
inductive MainState where
  | IDLE : MainState
  | MONITORING : MainState
  | LEAKCEHCK : MainState
deriving DecidableEq, Repr

/-- MAX_SCAN_SIZE from drvInficon.h. -/
def MAX_SCAN_SIZE : Nat := 16384

/-- Disposition of the writeRead result in drvInficon::inficonReadWrite
(drvInficon.cpp): the response is terminated and parsing proceeds with
status forced to asynSuccess when the underlying status is asynSuccess,
asynTimeout or asynError and at least one byte was read; every other
combination sets asynError and jumps to done.  Returns the status after
the branch and whether parsing proceeds. -/
def handleReadResult (st : AsynStatus) (nread : Nat) : AsynStatus × Bool :=
  if st = AsynStatus.asynSuccess ∧ 0 < nread then (AsynStatus.asynSuccess, true)
  else if st = AsynStatus.asynTimeout ∧ 0 < nread then (AsynStatus.asynSuccess, true)
  else if st = AsynStatus.asynError ∧ 0 < nread then (AsynStatus.asynSuccess, true)
  else (AsynStatus.asynError, false)

/-- Opening brace character, written with an escape. -/
def openBrace : Char := '\x7b'

/-- Closing brace character, written with an escape. -/
def closeBrace : Char := '\x7d'

/-- Literal status line marker searched by strstr in inficonReadWrite. -/
def httpMarker : List Char := String.toList "HTTP/1.1"

/-- Index of the first occurrence of a pattern as a contiguous sublist,
modelling strstr on the response buffer. -/
def firstMatch (pat : List Char) : List Char → Option Nat
  | [] => if pat.isEmpty then some 0 else none
  | c :: rest =>
      if pat.isPrefixOf (c :: rest) then some 0
      else (firstMatch pat rest).map (· + 1)

/-- Index of the first occurrence of a character, modelling strchr. -/
def firstIdxOf (c : Char) (s : List Char) : Option Nat :=
  s.findIdx? (· = c)

/-- Index of the last occurrence of a character, modelling strrchr. -/
def lastIdxOf (c : Char) (s : List Char) : Option Nat :=
  match (s.reverse).findIdx? (· = c) with
  | some k => some (s.length - 1 - k)
  | none => none

/-- Whitespace predicate of isspace as used by sscanf when skipping
characters before a numeric conversion. -/
def isSpaceChar (c : Char) : Bool :=
  c = ' ' || c = '\t' || c = '\n' || c = '\x0b' || c = '\x0c' || c = '\r'

/-- Leading digits of a list, at most n of them, used for the width-3
numeric field of sscanf. -/
def takeDigits : Nat → List Char → List Char
  | 0, _ => []
  | _ + 1, [] => []
  | n + 1, c :: r => if c.isDigit then c :: takeDigits n r else []

/-- Numeric value of a digit string. -/
def digitsToNat (ds : List Char) : Nat :=
  ds.foldl (fun a c => 10 * a + (c.toNat - 48)) 0

/-- Model of sscanf(substring, "HTTP/1.1 %3d", &responseCode) applied to
the text following the marker: skip whitespace, read an optional sign and
then digits, at most three characters of the field in total; none when no
digit is found, in which case the C variable responseCode stays
uninitialized (the theorems below therefore carry the hypothesis that a
code is parseable whenever the marker is present). -/
def scanCode (s : List Char) : Option Int :=
  let t := s.dropWhile isSpaceChar
  match t with
  | '-' :: r =>
      let ds := takeDigits 2 r
      if ds.isEmpty then none else some (-(digitsToNat ds : Int))
  | '+' :: r =>
      let ds := takeDigits 2 r
      if ds.isEmpty then none else some ((digitsToNat ds : Int))
  | _ =>
      let ds := takeDigits 3 t
      if ds.isEmpty then none else some ((digitsToNat ds : Int))

/-- Payload extraction of inficonReadWrite: memcpy from the first brace
through the last brace, length jsonStop - jsonStart + 1. -/
def extractPayload (a b : Nat) (s : List Char) : List Char :=
  (s.drop a).take (b + 1 - a)

/-- Response framing of drvInficon::inficonReadWrite after a completed
read: locate the literal HTTP/1.1 marker, parse the three digit code
after it, and when the code is 200 return the substring from the first
opening brace through the last closing brace; a missing marker, a code
other than 200, or a missing brace is an error. -/
def parseHttpResponse (resp : List Char) : Except Unit (List Char) :=
  match firstMatch httpMarker resp with
  | none => Except.error ()
  | some i =>
      match scanCode (resp.drop (i + httpMarker.length)) with
      | none => Except.error ()
      | some c =>
          if c = 200 then
            match firstIdxOf openBrace resp, lastIdxOf closeBrace resp with
            | some a, some b => Except.ok (extractPayload a b resp)
            | some _, none => Except.error ()
            | none, _ => Except.error ()
          else Except.error ()

/-- One full exchange of drvInficon::inficonReadWrite, given the status
and byte count reported by pasynOctetSyncIO->writeRead and the received
response text: the read disposition decides whether framing runs; the
caller sees asynSuccess together with the extracted payload, or asynError
with no payload. -/
def inficonReadWrite (st : AsynStatus) (nread : Nat) (resp : List Char) :
    AsynStatus × List Char :=
  match handleReadResult st nread with
  | (_, false) => (AsynStatus.asynError, [])
  | (_, true) =>
      match parseHttpResponse resp with
      | Except.ok payload => (AsynStatus.asynSuccess, payload)
      | Except.error _ => (AsynStatus.asynError, [])

/-- Guard that a status code is parseable after the marker whenever the
marker occurs; outside this guard the C code reads an uninitialized
variable. -/
def codeParseable (resp : List Char) : Bool :=
  match firstMatch httpMarker resp with
  | none => true
  | some i => (scanCode (resp.drop (i + httpMarker.length))).isSome

/-- Guard that the first opening brace does not come after the last
closing brace when both exist; outside this guard the C code computes a
negative memcpy length. -/
def bracesOrdered (resp : List Char) : Bool :=
  match firstIdxOf openBrace resp, lastIdxOf closeBrace resp with
  | some a, some b => a ≤ b
  | _, _ => true

/-- JSON values as manipulated by the driver through the nlohmann
library; numbers are modelled as rationals covering both the integer and
the floating kinds. -/
inductive Json where
  | null : Json
  | bool : Bool → Json
  | num : Rat → Json
  | str : String → Json
  | arr : List Json → Json
  | obj : List (String × Json) → Json

/-- Field access j[k] of nlohmann json on a non const value: on an
object the field, or null when the key is absent (operator[] inserts a
null there); on null likewise null (null converts to an empty object);
on any other kind a type error is thrown. -/
def jsonIndex (j : Json) (k : String) : Except Unit Json :=
  match j with
  | Json.obj kvs => Except.ok ((((kvs.find? (fun kv => kv.1 = k)).map Prod.snd)).getD Json.null)
  | Json.null => Except.ok Json.null
  | _ => Except.error ()

/-- Conversion of a json value to an unsigned integer as done by the
implicit nlohmann conversion: any number converts by static_cast
truncation, every other kind throws. -/
def jToUInt (j : Json) : Except Unit Nat :=
  match j with
  | Json.num q => Except.ok q.floor.toNat
  | _ => Except.error ()

/-- Size of a json value as returned by the nlohmann size(): zero for
null, the length for arrays and objects, one for the other kinds. -/
def jSize (j : Json) : Nat :=
  match j with
  | Json.null => 0
  | Json.arr xs => xs.length
  | Json.obj kvs => kvs.length
  | _ => 1

/-- Conversion of a json value to a float vector as done by
get applied at the vector of float type: the value must be an array of
numbers, anything else throws. -/
def jToFloatList (j : Json) : Except Unit (List Rat) :=
  match j with
  | Json.arr xs =>
      xs.mapM (fun x => match x with
        | Json.num q => Except.ok q
        | _ => Except.error ())
  | _ => Except.error ()

/-- Scan buffer of drvInficon.h (scanDataStruct); the two fixed float
arrays of capacity MAX_SCAN_SIZE are modelled as total maps from indices
to values. -/
structure scanDataStruct where
  scanSize : Nat
  actualScanSize : Nat
  scanNumber : Nat
  scanValues : Nat → Rat
  amuValues : Nat → Rat

/-- JSON stage of drvInficon::parseScan (the try block): the input is
the parsed document, or none when json parse itself failed.  The fields
scansize, the size of the values array, scannum and finally the values
themselves are extracted in source order, each assignment committing
directly into the target struct, so a failure at a later field leaves
the earlier fields already overwritten. -/
def scanJsonDecode (oj : Option Json) (prev : scanDataStruct) :
    AsynStatus × scanDataStruct :=
  match oj with
  | none => (AsynStatus.asynError, prev)
  | some j =>
      match (jsonIndex j "data" >>= fun d => jsonIndex d "scansize" >>= jToUInt) with
      | Except.error _ => (AsynStatus.asynError, prev)
      | Except.ok sz =>
          let s1 := { prev with scanSize := sz }
          match (jsonIndex j "data" >>= fun d => jsonIndex d "values") with
          | Except.error _ => (AsynStatus.asynError, s1)
          | Except.ok vj =>
              let s2 := { s1 with actualScanSize := jSize vj }
              match (jsonIndex j "data" >>= fun d => jsonIndex d "scannum" >>= jToUInt) with
              | Except.error _ => (AsynStatus.asynError, s2)
              | Except.ok sn =>
                  let s3 := { s2 with scanNumber := sn }
                  match jToFloatList vj with
                  | Except.error _ => (AsynStatus.asynError, s3)
                  | Except.ok vals =>
                      (AsynStatus.asynSuccess,
                       { s3 with scanValues := fun i =>
                           if i < s2.actualScanSize then vals.getD i 0
                           else prev.scanValues i })

/-- Full drvInficon::parseScan: the JSON stage above followed by the
derived axis computation, with the cached start mass, stop mass and
points per AMU of channel 3 passed in.  The validations ppAMU strictly
positive, declared scan size strictly positive and start mass at most
stop mass guard the axis; on a validation failure the axis values stay
untouched and asynError is returned.  On success amuValues i becomes
startMass + i * (1 / ppAMU) for the scanSize first indices. -/
def parseScan (oj : Option Json) (prev : scanDataStruct)
    (startMass stopMass : Rat) (ppAMU : Nat) : AsynStatus × scanDataStruct :=
  match scanJsonDecode oj prev with
  | (AsynStatus.asynSuccess, d) =>
      if ppAMU ≤ 0 then (AsynStatus.asynError, d)
      else if d.scanSize ≤ 0 then (AsynStatus.asynError, d)
      else if startMass > stopMass then (AsynStatus.asynError, d)
      else
        (AsynStatus.asynSuccess,
         { d with amuValues := fun i =>
             if i < d.scanSize then startMass + (i : Rat) * (1 / (ppAMU : Rat))
             else d.amuValues i })
  | (st, d) => (st, d)

/-- Request lines issued by the start monitor branch of
drvInficon::writeUInt32Digital, in order: stop any scan, configure
channel 3 for sweep mode, select channel 3, infinite scan count, scan
start. -/
def startMonitorRequests : List String :=
  ["GET /mmsp/scanSetup/scanStop/set?Immediately\r\n\r\n",
   "GET /mmsp/scanSetup/channels/3/set?channelMode=Sweep&enabled=True\r\n\r\n",
   "GET /mmsp/scanSetup/set?startChannel=3&stopChannel=3\r\n\r\n",
   "GET /mmsp/scanSetup/scanCount/set?-1\r\n\r\n",
   "GET /mmsp/scanSetup/scanStart/set?1\r\n\r\n"]

/-- Request lines issued by the start leak check branch of
drvInficon::writeUInt32Digital, in order: stop any scan, configure
channel 4 for single mode, select channel 4, infinite scan count, scan
start. -/
def startLeakcheckRequests : List String :=
  ["GET /mmsp/scanSetup/scanStop/set?Immediately\r\n\r\n",
   "GET /mmsp/scanSetup/channels/4/set?channelMode=Single&enabled=True\r\n\r\n",
   "GET /mmsp/scanSetup/set?startChannel=4&stopChannel=4\r\n\r\n",
   "GET /mmsp/scanSetup/scanCount/set?-1\r\n\r\n",
   "GET /mmsp/scanSetup/scanStart/set?1\r\n\r\n"]

/-- Start monitor branch of drvInficon::writeUInt32Digital.  Inputs are
the current driver state, the cached scanStatus of the scan info struct,
the exchange results e1 to e4 of the four gated device exchanges, the
result e5 of the final scan start exchange (assigned to no variable in
the source and therefore ignored), and the current startingMonitor flag.
Output: returned status, state after the call, startingMonitor flag
after the call, and the request lines handed to inficonReadWrite.  The
guard rejects only when the state differs from IDLE and scanStatus is
nonzero; past the guard the member ioStatus holds e4 when the state
transition is decided. -/
def startMonitor (ms : MainState) (scanStatus : Nat)
    (e1 e2 e3 e4 e5 : AsynStatus) (startingMon : Bool) :
    AsynStatus × MainState × Bool × List String :=
  if ms ≠ MainState.IDLE ∧ scanStatus ≠ 0 then
    (AsynStatus.asynError, ms, startingMon, [])
  else
    let _ := (e1, e2, e3, e5)
    if e4 ≠ AsynStatus.asynSuccess then (e4, ms, startingMon, startMonitorRequests)
    else (AsynStatus.asynSuccess, MainState.MONITORING, true, startMonitorRequests)

/-- Start leak check branch of drvInficon::writeUInt32Digital, symmetric
to the start monitor branch with channel 4 and the startingLeakcheck
flag. -/
def startLeakcheck (ms : MainState) (scanStatus : Nat)
    (e1 e2 e3 e4 e5 : AsynStatus) (startingLeak : Bool) :
    AsynStatus × MainState × Bool × List String :=
  if ms ≠ MainState.IDLE ∧ scanStatus ≠ 0 then
    (AsynStatus.asynError, ms, startingLeak, [])
  else
    let _ := (e1, e2, e3, e5)
    if e4 ≠ AsynStatus.asynSuccess then (e4, ms, startingLeak, startLeakcheckRequests)
    else (AsynStatus.asynSuccess, MainState.LEAKCEHCK, true, startLeakcheckRequests)

/-- Endpoints read by the poller thread, one per device resource
fetched by drvInficon::pollerThread. -/
inductive Endpoint where
  | diagData : Endpoint
  | sensDetect : Endpoint
  | sensIonSource : Endpoint
  | chScanSetup3 : Endpoint
  | chScanSetup4 : Endpoint
  | commParam : Endpoint
  | sensInfo : Endpoint
  | devStatus : Endpoint
  | sensFilt : Endpoint
  | scanInfo : Endpoint
  | totalPressure : Endpoint
  | scanMeasurement : Endpoint
deriving DecidableEq, Repr

/-- Five second tier of the poller, in source order. -/
def tier5Reads : List Endpoint :=
  [Endpoint.diagData, Endpoint.sensDetect, Endpoint.sensIonSource,
   Endpoint.chScanSetup3, Endpoint.chScanSetup4]

/-- Ten second tier of the poller, in source order. -/
def tier10Reads : List Endpoint :=
  [Endpoint.commParam, Endpoint.sensInfo, Endpoint.devStatus, Endpoint.sensFilt]

/-- Reads executed unconditionally on every poll cycle. -/
def everyCycleReads : List Endpoint :=
  [Endpoint.scanInfo, Endpoint.totalPressure]

/-- Total wall clock duration of a group of reads, given a duration for
each endpoint exchange. -/
def sumDur (dur : Endpoint → Rat) (l : List Endpoint) : Rat :=
  (l.map dur).sum

/-- Tier timestamps of the poller thread: the epics time stamps
cycleTimeFifeSec and cycleTimeTenSec, updated by epicsTimeGetCurrent
directly after the reads of the respective tier. -/
structure TierClocks where
  t5 : Rat
  t10 : Rat

/-- Tier scheduling part of one iteration of drvInficon::pollerThread.
Parameters: the duration of each device exchange, the status each
exchange returns (consumed only by error logging, hence without effect
here), the current time taken at the top of the cycle, and the tier
timestamps.  Both elapsed differences are computed from the cycle start
time before any read; the five second tier runs first when its elapsed
time reached 5, then the ten second tier when its elapsed time reached
10, then the every cycle group; each tier timestamp is set to the clock
value right after the reads of that tier, whether they succeeded or
not, and is left alone when the tier was skipped. -/
def pollerCycle (dur : Endpoint → Rat) (res : Endpoint → AsynStatus)
    (curr : Rat) (ck : TierClocks) : List Endpoint × TierClocks :=
  let _ := res
  let run5 : Bool := decide (curr - ck.t5 ≥ 5)
  let run10 : Bool := decide (curr - ck.t10 ≥ 10)
  let c1 := curr + (if run5 then sumDur dur tier5Reads else 0)
  let t5n := if run5 then c1 else ck.t5
  let c2 := c1 + (if run10 then sumDur dur tier10Reads else 0)
  let t10n := if run10 then c2 else ck.t10
  ((if run5 then tier5Reads else []) ++ (if run10 then tier10Reads else [])
     ++ everyCycleReads,
   { t5 := t5n, t10 := t10n })

/-- Acquisition bookkeeping of the poller: driver state, the two just
entered flags and the last polled scan number, mirroring the members
mainState_, startingLeakcheck_, startingMonitor_ and lastPolledScan_. -/
structure ScanPoll where
  mainState : MainState
  startingLeakcheck : Bool
  startingMonitor : Bool
  lastPolledScan : Int

/-- One conditional scan pull block of the poller (shared shape of the
leak check block and the monitoring block): when active, a set just
entered flag is cleared and the last polled number reset to minus one;
then, when the newly observed last completed scan number exceeds the
last polled number, the latest scan is fetched and the last polled
number advanced to the observed number.  Returns whether a fetch was
issued, the flag after the block and the last polled number after the
block. -/
def pollScanBlock (active starting : Bool) (lastPolled lastScan : Int) :
    Bool × Bool × Int :=
  if active then
    let p := if starting then ((false : Bool), (-1 : Int)) else (starting, lastPolled)
    if lastScan > p.2 then (true, p.1, lastScan) else (false, p.1, p.2)
  else (false, starting, lastPolled)

/-- Scan pull part of one iteration of drvInficon::pollerThread: the
leak check block runs first, gated on state LEAKCEHCK and cached
scanStatus equal to one, then the monitoring block, gated on state
MONITORING and the same scanStatus, threading the shared lastPolledScan
member through both.  The output lists the scan measurement fetches
issued. -/
def scanPullStep (st : ScanPoll) (scanStatus : Nat) (lastScan : Int) :
    List Endpoint × ScanPoll :=
  let leakActive := decide (st.mainState = MainState.LEAKCEHCK ∧ scanStatus = 1)
  let r1 := pollScanBlock leakActive st.startingLeakcheck st.lastPolledScan lastScan
  let monActive := decide (st.mainState = MainState.MONITORING ∧ scanStatus = 1)
  let r2 := pollScanBlock monActive st.startingMonitor r1.2.2 lastScan
  ((if r1.1 then [Endpoint.scanMeasurement] else [])
     ++ (if r2.1 then [Endpoint.scanMeasurement] else []),
   { mainState := st.mainState,
     startingLeakcheck := r1.2.1,
     startingMonitor := r2.2.1,
     lastPolledScan := r2.2.2 })

/-- Scan buffer with all fields zero, used as the previous value in the
concrete evaluations below. -/
def prev0 : scanDataStruct :=
  { scanSize := 0, actualScanSize := 0, scanNumber := 0,
    scanValues := fun _ => 0, amuValues := fun _ => 0 }

/-- Concrete scan document with three samples and declared size three. -/
def scanJson0 : Json :=
  Json.obj [("data", Json.obj
    [("scansize", Json.num 3),
     ("values", Json.arr [Json.num 1, Json.num 2, Json.num 3]),
     ("scannum", Json.num 1)])]

/-- Concrete scan document whose scannum field is missing, so the decode
fails after the scansize field has already been committed. -/
def scanJsonPartial : Json :=
  Json.obj [("data", Json.obj [("scansize", Json.num 7)])]

/-- Concrete scan document with two received samples but declared size
one. -/
def scanJsonA : Json :=
  Json.obj [("data", Json.obj
    [("scansize", Json.num 1),
     ("values", Json.arr [Json.num 5, Json.num 6]),
     ("scannum", Json.num 2)])]

/-- Concrete scan document declaring a scan size one above
MAX_SCAN_SIZE. -/
def scanJsonB : Json :=
  Json.obj [("data", Json.obj
    [("scansize", Json.num 16385),
     ("values", Json.arr [Json.num 5]),
     ("scannum", Json.num 2)])]

/-- Concrete well formed device response with status 200 and a brace
delimited payload. -/
def respOk : List Char := String.toList "HTTP/1.1 200 OK\r\n\r\n\x7bdata:1\x7d"

/-- Helper: once the read disposition decides to proceed, the exchange
result is determined by the response framing alone. -/
theorem inficonReadWrite_proceed (st : AsynStatus) (n : Nat) (resp : List Char)
    (h : (handleReadResult st n).2 = true) :
    inficonReadWrite st n resp =
      (match parseHttpResponse resp with
       | Except.ok payload => (AsynStatus.asynSuccess, payload)
       | Except.error _ => (AsynStatus.asynError, [])) := by
  unfold inficonReadWrite
  rcases hh : handleReadResult st n with ⟨a, b⟩
  rw [hh] at h
  cases b
  · exact absurd h (by simp)
  · rfl

/-- C9: a read timeout that produced zero bytes makes the exchange fail
with asynError and no payload, while a read timeout with at least one
byte received is treated as a soft success: the status is forced to
asynSuccess and the received text is handed to the response framing,
whose outcome becomes the outcome of the exchange. -/
theorem inficonReadWrite_timeout (n : Nat) (resp : List Char) :
    inficonReadWrite AsynStatus.asynTimeout 0 resp = (AsynStatus.asynError, []) ∧
    (0 < n →
      handleReadResult AsynStatus.asynTimeout n = (AsynStatus.asynSuccess, true) ∧
      inficonReadWrite AsynStatus.asynTimeout n resp =
        (match parseHttpResponse resp with
         | Except.ok payload => (AsynStatus.asynSuccess, payload)
         | Except.error _ => (AsynStatus.asynError, []))) := by
  constructor
  · rfl
  · intro hn
    have hh : handleReadResult AsynStatus.asynTimeout n = (AsynStatus.asynSuccess, true) := by
      simp [handleReadResult, hn]
    exact ⟨hh, inficonReadWrite_proceed _ _ _ (by rw [hh])⟩

/-- Witness for C9 at concrete inputs: with zero bytes the timeout
exchange errors, with the full concrete response received it succeeds
and returns the payload. -/
theorem inficonReadWrite_timeout_witness :
    inficonReadWrite AsynStatus.asynTimeout 0 respOk = (AsynStatus.asynError, []) ∧
    inficonReadWrite AsynStatus.asynTimeout 28 respOk =
      (AsynStatus.asynSuccess, String.toList "\x7bdata:1\x7d") := by
  have h := inficonReadWrite_timeout 28 respOk
  exact ⟨h.1, ((h.2 (by decide)).2).trans (by rfl)⟩

/-- C10: a transport level asynError status with at least one byte read
is handled exactly like a successful read: the status is overwritten
with asynSuccess and the partial text is parsed, so the exchange is
indistinguishable from a fully successful one at the interface. -/
theorem inficonReadWrite_error_partial (n : Nat) (resp : List Char) (hn : 0 < n) :
    handleReadResult AsynStatus.asynError n = (AsynStatus.asynSuccess, true) ∧
    inficonReadWrite AsynStatus.asynError n resp =
      inficonReadWrite AsynStatus.asynSuccess n resp := by
  have hh : handleReadResult AsynStatus.asynError n = (AsynStatus.asynSuccess, true) := by
    simp [handleReadResult, hn]
  have hs : handleReadResult AsynStatus.asynSuccess n = (AsynStatus.asynSuccess, true) := by
    simp [handleReadResult, hn]
  exact ⟨hh, (inficonReadWrite_proceed _ _ _ (by rw [hh])).trans
    (inficonReadWrite_proceed _ _ _ (by rw [hs])).symm⟩

/-- Witness for C10 at a concrete input: an asynError read of the
concrete response behaves like the successful read of it. -/
theorem inficonReadWrite_error_partial_witness :
    handleReadResult AsynStatus.asynError 28 = (AsynStatus.asynSuccess, true) ∧
    inficonReadWrite AsynStatus.asynError 28 respOk =
      inficonReadWrite AsynStatus.asynSuccess 28 respOk :=
  inficonReadWrite_error_partial 28 respOk (by decide)

/-- C4: for a delivered response text (at least one byte, under the
guards that a status code is parseable after the marker and that the
braces are not reversed, outside which the C code reads uninitialized
memory respectively computes a negative memcpy length), the exchange
succeeds exactly when the text contains the HTTP/1.1 marker followed by
the code 200 and contains an opening and a closing brace; on success the
payload is the substring from the first opening brace through the last
closing brace, and a non 200 code makes the exchange fail. -/
theorem inficonReadWrite_frame (n : Nat) (resp : List Char) (hn : 0 < n)
    (_hcode : codeParseable resp = true) (_hbr : bracesOrdered resp = true) :
    ((inficonReadWrite AsynStatus.asynSuccess n resp).1 = AsynStatus.asynSuccess ↔
      (∃ i, firstMatch httpMarker resp = some i ∧
         scanCode (resp.drop (i + httpMarker.length)) = some 200) ∧
      (firstIdxOf openBrace resp).isSome ∧ (lastIdxOf closeBrace resp).isSome) ∧
    (∀ a b, firstIdxOf openBrace resp = some a → lastIdxOf closeBrace resp = some b →
      (∃ i, firstMatch httpMarker resp = some i ∧
         scanCode (resp.drop (i + httpMarker.length)) = some 200) →
      inficonReadWrite AsynStatus.asynSuccess n resp =
        (AsynStatus.asynSuccess, extractPayload a b resp)) ∧
    (∀ i c, firstMatch httpMarker resp = some i →
      scanCode (resp.drop (i + httpMarker.length)) = some c → c ≠ 200 →
      (inficonReadWrite AsynStatus.asynSuccess n resp).1 = AsynStatus.asynError) := by
  have hh : handleReadResult AsynStatus.asynSuccess n = (AsynStatus.asynSuccess, true) := by
    simp [handleReadResult, hn]
  have key := inficonReadWrite_proceed AsynStatus.asynSuccess n resp (by rw [hh])
  clear _hcode _hbr
  rw [key]
  cases hm : firstMatch httpMarker resp with
  | none => simp [parseHttpResponse, hm]
  | some i =>
      cases hc : scanCode (resp.drop (i + httpMarker.length)) with
      | none => simp [parseHttpResponse, hm, hc]
      | some c =>
          by_cases h200 : c = 200
          · subst h200
            cases ha : firstIdxOf openBrace resp with
            | none => simp [parseHttpResponse, hm, hc, ha]
            | some a =>
                cases hb : lastIdxOf closeBrace resp with
                | none => simp [parseHttpResponse, hm, hc, ha, hb]
                | some b =>
                    simp [parseHttpResponse, hm, hc, ha, hb]
                    intro i1 c h1 h2
                    subst h1
                    rw [hc] at h2
                    exact (Option.some_inj.mp h2).symm
          · simp [parseHttpResponse, hm, hc, h200]

/-- Witness for C4 at the concrete response: the marker is followed by
200, the braces sit at indices 19 and 26, and the exchange returns the
payload between them. -/
theorem inficonReadWrite_frame_witness :
    inficonReadWrite AsynStatus.asynSuccess 28 respOk =
      (AsynStatus.asynSuccess, String.toList "\x7bdata:1\x7d") := by
  have h := inficonReadWrite_frame 28 respOk (by decide) (by rfl) (by rfl)
  have h2 := h.2.1 19 26 (by rfl) (by rfl) ⟨0, by rfl, by rfl⟩
  exact h2.trans (by rfl)

/-- Helper: the JSON stage of parseScan never touches the axis
values. -/
theorem scanJsonDecode_amu (oj : Option Json) (prev : scanDataStruct) :
    (scanJsonDecode oj prev).2.amuValues = prev.amuValues := by
  cases oj with
  | none => rfl
  | some j =>
      unfold scanJsonDecode
      repeat (first | rfl | split)

/-- C1: when the JSON stage of a scan decode succeeds and the cached
ppAMU is positive, the declared scan size positive and the start mass at
most the stop mass, parseScan succeeds and fills the axis with
amuValues i = startMass + i * (1 / ppAMU) for every index below the
declared scan size, leaving every index at or above the declared scan
size at its previous value. -/
theorem parseScan_axis (oj : Option Json) (prev : scanDataStruct)
    (sm stm : Rat) (p : Nat) (d0 : scanDataStruct)
    (hj : scanJsonDecode oj prev = (AsynStatus.asynSuccess, d0))
    (hp : 0 < p) (hsz : 0 < d0.scanSize) (hm : sm ≤ stm) :
    (parseScan oj prev sm stm p).1 = AsynStatus.asynSuccess ∧
    (parseScan oj prev sm stm p).2.scanSize = d0.scanSize ∧
    (∀ i, i < d0.scanSize →
      (parseScan oj prev sm stm p).2.amuValues i = sm + (i : Rat) * (1 / (p : Rat))) ∧
    (∀ i, d0.scanSize ≤ i →
      (parseScan oj prev sm stm p).2.amuValues i = prev.amuValues i) := by
  have hnp : ¬(p ≤ 0) := by omega
  have hns : ¬(d0.scanSize ≤ 0) := by omega
  have hnm : ¬(sm > stm) := not_lt.mpr hm
  have hpar : parseScan oj prev sm stm p =
      (AsynStatus.asynSuccess,
       { d0 with amuValues := fun i =>
           if i < d0.scanSize then sm + (i : Rat) * (1 / (p : Rat))
           else d0.amuValues i }) := by
    unfold parseScan
    rw [hj]
    simp [hnp, hns, hnm]
  have hamu : d0.amuValues = prev.amuValues := by
    have := scanJsonDecode_amu oj prev
    rw [hj] at this
    exact this
  refine ⟨by rw [hpar], by rw [hpar], ?_, ?_⟩
  · intro i hi
    rw [hpar]
    simp [hi]
  · intro i hi
    rw [hpar]
    have hni : ¬ i < d0.scanSize := by omega
    simp [hni, hamu]

/-- Witness for C1 at the concrete scenario of the specification:
declared scan size 3, startMass 10, ppAMU 10 yield the axis values 10,
10.1 and 10.2. -/
theorem parseScan_axis_witness :
    (parseScan (some scanJson0) prev0 10 200 10).2.amuValues 0 = 10 ∧
    (parseScan (some scanJson0) prev0 10 200 10).2.amuValues 1 = 101 / 10 ∧
    (parseScan (some scanJson0) prev0 10 200 10).2.amuValues 2 = 51 / 5 := by
  have hj : scanJsonDecode (some scanJson0) prev0 =
      (AsynStatus.asynSuccess, (scanJsonDecode (some scanJson0) prev0).2) :=
    Prod.ext_iff.mpr ⟨rfl, rfl⟩
  have h := parseScan_axis (some scanJson0) prev0 10 200 10 _ hj
    (by decide) (by decide) (by norm_num)
  exact ⟨(h.2.2.1 0 (by decide)).trans (by norm_num),
         (h.2.2.1 1 (by decide)).trans (by norm_num),
         (h.2.2.1 2 (by decide)).trans (by norm_num)⟩

/-- Counterexample to C2: a scan document whose scannum field is
missing makes the decode return asynError, yet the scanSize field of the
target struct has already been overwritten (7 instead of the previous
0), so the struct is not left unchanged on a decode error. -/
theorem parseScan_partial_write_cex :
    (parseScan (some scanJsonPartial) prev0 10 200 10).1 = AsynStatus.asynError ∧
    (parseScan (some scanJsonPartial) prev0 10 200 10).2.scanSize = 7 ∧
    prev0.scanSize = 0 :=
  ⟨rfl, rfl, rfl⟩

/-- C2 as amended: a decode that fails before any field has been
extracted (whole document parse failure, or failure already at the first
field access chain) leaves the target struct unchanged; later field
failures abort the decode but keep the fields committed before the
failing one (the decoders write directly into the target struct, not
into a scratch copy). -/
theorem parseScan_error_commit (j : Json) (prev : scanDataStruct)
    (sm stm : Rat) (p : Nat) :
    parseScan none prev sm stm p = (AsynStatus.asynError, prev) ∧
    ((jsonIndex j "data" >>= fun d => jsonIndex d "scansize" >>= jToUInt) =
        Except.error () →
      parseScan (some j) prev sm stm p = (AsynStatus.asynError, prev)) := by
  constructor
  · rfl
  · intro h
    have hs : scanJsonDecode (some j) prev = (AsynStatus.asynError, prev) := by
      simp only [scanJsonDecode]
      rw [h]
    unfold parseScan
    rw [hs]

/-- Witness for the amended C2 at concrete inputs: a json parse failure
and a document that is a bare number both leave the struct untouched. -/
theorem parseScan_error_commit_witness :
    parseScan none prev0 10 200 10 = (AsynStatus.asynError, prev0) ∧
    parseScan (some (Json.num 5)) prev0 10 200 10 = (AsynStatus.asynError, prev0) := by
  have h := parseScan_error_commit (Json.num 5) prev0 10 200 10
  exact ⟨h.1, h.2 (by rfl)⟩

/-- Counterexample to C8: a successful decode of a document with two
received samples but declared size one yields actualScanSize 2 above
scanSize 1, and a successful decode of a document declaring scan size
16385 exceeds MAX_SCAN_SIZE 16384; neither bound of the claimed
invariant is established by the code. -/
theorem parseScan_invariant_cex :
    ((parseScan (some scanJsonA) prev0 10 200 10).1 = AsynStatus.asynSuccess ∧
     (parseScan (some scanJsonA) prev0 10 200 10).2.actualScanSize = 2 ∧
     (parseScan (some scanJsonA) prev0 10 200 10).2.scanSize = 1) ∧
    ((parseScan (some scanJsonB) prev0 10 200 10).1 = AsynStatus.asynSuccess ∧
     (parseScan (some scanJsonB) prev0 10 200 10).2.scanSize = 16385 ∧
     MAX_SCAN_SIZE = 16384) :=
  ⟨⟨rfl, rfl, rfl⟩, ⟨rfl, rfl, rfl⟩⟩

/-- C8 as amended: a successful scan decode guarantees that the declared
scan size is positive (and that the cached ppAMU is positive and the
start mass at most the stop mass); it checks neither that the actual
sample count is at most the declared scan size nor that the declared
scan size is at most MAX_SCAN_SIZE. -/
theorem parseScan_success_guarantees (oj : Option Json) (prev : scanDataStruct)
    (sm stm : Rat) (p : Nat) (d : scanDataStruct)
    (h : parseScan oj prev sm stm p = (AsynStatus.asynSuccess, d)) :
    0 < d.scanSize ∧ 0 < p ∧ sm ≤ stm := by
  unfold parseScan at h
  rcases hsd : scanJsonDecode oj prev with ⟨st, d0⟩
  rw [hsd] at h
  cases st with
  | asynSuccess =>
      dsimp only at h
      split_ifs at h with h1 h2 h3
      · exact absurd (congrArg Prod.fst h) (by simp)
      · exact absurd (congrArg Prod.fst h) (by simp)
      · exact absurd (congrArg Prod.fst h) (by simp)
      · have hd := congrArg Prod.snd h
        dsimp only at hd
        have hsz : d.scanSize = d0.scanSize := by rw [← hd]
        exact ⟨by omega, by omega, not_lt.mp h3⟩
  | asynTimeout => exact absurd (congrArg Prod.fst h) (by simp)
  | asynOverflow => exact absurd (congrArg Prod.fst h) (by simp)
  | asynError => exact absurd (congrArg Prod.fst h) (by simp)
  | asynDisconnected => exact absurd (congrArg Prod.fst h) (by simp)
  | asynDisabled => exact absurd (congrArg Prod.fst h) (by simp)

/-- Witness for the amended C8 at a concrete successful decode. -/
theorem parseScan_success_guarantees_witness :
    0 < (parseScan (some scanJson0) prev0 10 200 10).2.scanSize ∧
    0 < 10 ∧ (10 : Rat) ≤ 200 :=
  parseScan_success_guarantees (some scanJson0) prev0 10 200 10
    ((parseScan (some scanJson0) prev0 10 200 10).2) (Prod.ext_iff.mpr ⟨rfl, rfl⟩)

/-- C3 evaluated at the failing inputs: the guard of the start monitor
command rejects only when the state differs from IDLE and the cached
scanStatus is nonzero at the same time.  From IDLE with the scanning
flag set (scanStatus 1) the claimed precondition is violated, yet the
command is accepted, issues all five device requests and enters
MONITORING; likewise from MONITORING with scanStatus 0 the command is
accepted and the device exchanges are attempted. -/
theorem startMonitor_guard_bug :
    ((startMonitor MainState.IDLE 1 AsynStatus.asynSuccess AsynStatus.asynSuccess
        AsynStatus.asynSuccess AsynStatus.asynSuccess AsynStatus.asynSuccess false).1 =
          AsynStatus.asynSuccess ∧
     (startMonitor MainState.IDLE 1 AsynStatus.asynSuccess AsynStatus.asynSuccess
        AsynStatus.asynSuccess AsynStatus.asynSuccess AsynStatus.asynSuccess false).2.1 =
          MainState.MONITORING ∧
     (startMonitor MainState.IDLE 1 AsynStatus.asynSuccess AsynStatus.asynSuccess
        AsynStatus.asynSuccess AsynStatus.asynSuccess AsynStatus.asynSuccess false).2.2.2 =
          startMonitorRequests ∧
     ¬(MainState.IDLE = MainState.IDLE ∧ (1 : Nat) = 0)) ∧
    ((startMonitor MainState.MONITORING 0 AsynStatus.asynSuccess AsynStatus.asynSuccess
        AsynStatus.asynSuccess AsynStatus.asynSuccess AsynStatus.asynSuccess false).1 =
          AsynStatus.asynSuccess ∧
     (startMonitor MainState.MONITORING 0 AsynStatus.asynSuccess AsynStatus.asynSuccess
        AsynStatus.asynSuccess AsynStatus.asynSuccess AsynStatus.asynSuccess false).2.2.2 =
          startMonitorRequests ∧
     ¬(MainState.MONITORING = MainState.IDLE ∧ (0 : Nat) = 0)) :=
  ⟨⟨rfl, rfl, rfl, by decide⟩, ⟨rfl, rfl, by decide⟩⟩

/-- C7: once the guard of a start monitor or start leak check command
has passed and the four gated exchanges succeeded, the driver enters
MONITORING respectively LEAKCEHCK and sets the just entered flag, for
every outcome e5 of the final scan start exchange. -/
theorem startSequence_final_not_gated (ms : MainState) (scanStatus : Nat)
    (e5 : AsynStatus) (bm bl : Bool)
    (hpre : ¬(ms ≠ MainState.IDLE ∧ scanStatus ≠ 0)) :
    startMonitor ms scanStatus AsynStatus.asynSuccess AsynStatus.asynSuccess
        AsynStatus.asynSuccess AsynStatus.asynSuccess e5 bm =
      (AsynStatus.asynSuccess, MainState.MONITORING, true, startMonitorRequests) ∧
    startLeakcheck ms scanStatus AsynStatus.asynSuccess AsynStatus.asynSuccess
        AsynStatus.asynSuccess AsynStatus.asynSuccess e5 bl =
      (AsynStatus.asynSuccess, MainState.LEAKCEHCK, true, startLeakcheckRequests) := by
  constructor
  · unfold startMonitor
    rw [if_neg hpre]
    rfl
  · unfold startLeakcheck
    rw [if_neg hpre]
    rfl

/-- Witness for C7 at concrete inputs: from IDLE with scanStatus 0, a
timed out final scan start exchange still ends in the active state with
the just entered flag set. -/
theorem startSequence_final_not_gated_witness :
    startMonitor MainState.IDLE 0 AsynStatus.asynSuccess AsynStatus.asynSuccess
        AsynStatus.asynSuccess AsynStatus.asynSuccess AsynStatus.asynTimeout false =
      (AsynStatus.asynSuccess, MainState.MONITORING, true, startMonitorRequests) ∧
    startLeakcheck MainState.IDLE 0 AsynStatus.asynSuccess AsynStatus.asynSuccess
        AsynStatus.asynSuccess AsynStatus.asynSuccess AsynStatus.asynTimeout false =
      (AsynStatus.asynSuccess, MainState.LEAKCEHCK, true, startLeakcheckRequests) :=
  startSequence_final_not_gated MainState.IDLE 0 AsynStatus.asynTimeout false false
    (by decide)

/-- C6: on every poll iteration the every cycle group (scan info and
total pressure) is read unconditionally; every endpoint of the ten
second tier is read exactly when at least ten seconds have elapsed since
that tier's own timestamp at the cycle start; when the tier runs, its
timestamp is set to the clock value reached after the tier's reads have
completed (cycle start plus the duration of a preceding five second tier
run plus the duration of the four tier reads), otherwise it is left
unchanged; and the whole iteration is unaffected by the statuses the
reads return. -/
theorem pollerCycle_tier_schedule (dur : Endpoint → Rat)
    (res res2 : Endpoint → AsynStatus) (curr : Rat) (ck : TierClocks) :
    (Endpoint.scanInfo ∈ (pollerCycle dur res curr ck).1 ∧
     Endpoint.totalPressure ∈ (pollerCycle dur res curr ck).1) ∧
    (∀ e ∈ tier10Reads, (e ∈ (pollerCycle dur res curr ck).1 ↔ curr - ck.t10 ≥ 10)) ∧
    (curr - ck.t10 ≥ 10 →
      (pollerCycle dur res curr ck).2.t10 =
        curr + (if curr - ck.t5 ≥ 5 then sumDur dur tier5Reads else 0)
             + sumDur dur tier10Reads) ∧
    (¬(curr - ck.t10 ≥ 10) → (pollerCycle dur res curr ck).2.t10 = ck.t10) ∧
    pollerCycle dur res curr ck = pollerCycle dur res2 curr ck := by
  by_cases h10 : curr - ck.t10 ≥ 10 <;> by_cases h5 : curr - ck.t5 ≥ 5 <;>
    simp [pollerCycle, h10, h5, tier5Reads, tier10Reads, everyCycleReads]

/-- Witness for C6 at concrete values: unit read durations, cycle start
at time 100 with both timestamps at 0; the every cycle endpoints and the
ten second tier endpoints are all read and the tier timestamp becomes
109 (start 100, plus 5 for the five second tier, plus 4 for the tier
itself). -/
theorem pollerCycle_tier_schedule_witness :
    Endpoint.scanInfo ∈
      (pollerCycle (fun _ => 1) (fun _ => AsynStatus.asynSuccess) 100 ⟨0, 0⟩).1 ∧
    Endpoint.commParam ∈
      (pollerCycle (fun _ => 1) (fun _ => AsynStatus.asynSuccess) 100 ⟨0, 0⟩).1 ∧
    (pollerCycle (fun _ => 1) (fun _ => AsynStatus.asynSuccess) 100 ⟨0, 0⟩).2.t10 = 109 := by
  have h := pollerCycle_tier_schedule (fun _ => 1) (fun _ => AsynStatus.asynSuccess)
    (fun _ => AsynStatus.asynSuccess) 100 ⟨0, 0⟩
  refine ⟨h.1.1, (h.2.1 Endpoint.commParam (by decide)).mpr (by norm_num),
    (h.2.2.1 (by norm_num)).trans ?_⟩
  norm_num [sumDur, tier5Reads, tier10Reads]

/-- Helper: an inactive scan pull block passes its inputs through. -/
theorem pollScanBlock_inactive (s : Bool) (lp ls : Int) :
    pollScanBlock false s lp ls = (false, s, lp) := rfl

/-- Helper: an active scan pull block clears the just entered flag,
fetches exactly when the observed number exceeds the (possibly reset)
last polled number, and advances the last polled number accordingly. -/
theorem pollScanBlock_active (s : Bool) (lp ls : Int) :
    pollScanBlock true s lp ls =
      (decide (ls > (if s then (-1 : Int) else lp)), false,
       if ls > (if s then (-1 : Int) else lp) then ls
       else (if s then (-1 : Int) else lp)) := by
  cases s with
  | false => by_cases h : ls > lp <;> simp [pollScanBlock, h]
  | true => by_cases h : ls > (-1 : Int) <;> simp [pollScanBlock, h]

/-- C5: during an active acquisition (state MONITORING or LEAKCEHCK
with the cached scanStatus equal to one), a poll cycle fetches the
latest scan exactly when the newly observed last completed scan number
exceeds the current last polled number (which the just entered flag
first resets to minus one on the first such cycle after entry), the
last polled number then advances to the observed number, and once the
just entered flag is down the last polled number never decreases. -/
theorem scanPull_tick (st : ScanPoll) (scanStatus : Nat) (lastScan : Int)
    (hs : scanStatus = 1) :
    (st.mainState = MainState.MONITORING →
      ((Endpoint.scanMeasurement ∈ (scanPullStep st scanStatus lastScan).1 ↔
         lastScan > (if st.startingMonitor then (-1 : Int) else st.lastPolledScan)) ∧
       (scanPullStep st scanStatus lastScan).2.startingMonitor = false ∧
       (scanPullStep st scanStatus lastScan).2.lastPolledScan =
         (if lastScan > (if st.startingMonitor then (-1 : Int) else st.lastPolledScan)
          then lastScan
          else (if st.startingMonitor then (-1 : Int) else st.lastPolledScan)) ∧
       (st.startingMonitor = false →
         st.lastPolledScan ≤ (scanPullStep st scanStatus lastScan).2.lastPolledScan))) ∧
    (st.mainState = MainState.LEAKCEHCK →
      ((Endpoint.scanMeasurement ∈ (scanPullStep st scanStatus lastScan).1 ↔
         lastScan > (if st.startingLeakcheck then (-1 : Int) else st.lastPolledScan)) ∧
       (scanPullStep st scanStatus lastScan).2.startingLeakcheck = false ∧
       (scanPullStep st scanStatus lastScan).2.lastPolledScan =
         (if lastScan > (if st.startingLeakcheck then (-1 : Int) else st.lastPolledScan)
          then lastScan
          else (if st.startingLeakcheck then (-1 : Int) else st.lastPolledScan)) ∧
       (st.startingLeakcheck = false →
         st.lastPolledScan ≤ (scanPullStep st scanStatus lastScan).2.lastPolledScan))) := by
  subst hs
  rcases st with ⟨ms, sl, sm0, lp⟩
  constructor
  · rintro rfl
    have hstep : scanPullStep ⟨MainState.MONITORING, sl, sm0, lp⟩ 1 lastScan =
        ((if decide (lastScan > (if sm0 then (-1 : Int) else lp))
          then [Endpoint.scanMeasurement] else []),
         ⟨MainState.MONITORING, sl, false,
          if lastScan > (if sm0 then (-1 : Int) else lp) then lastScan
          else (if sm0 then (-1 : Int) else lp)⟩) := by
      unfold scanPullStep
      simp [pollScanBlock_inactive, pollScanBlock_active]
    rw [hstep]
    refine ⟨?_, rfl, rfl, ?_⟩
    · by_cases h : lastScan > (if sm0 then (-1 : Int) else lp) <;> simp [h]
    · rintro rfl
      simp only [if_neg (by simp : ¬ (false : Bool) = true)]
      by_cases h : lastScan > lp
      · simp only [if_pos h]
        omega
      · simp only [if_neg h]
        exact le_refl lp

  · rintro rfl
    have hstep : scanPullStep ⟨MainState.LEAKCEHCK, sl, sm0, lp⟩ 1 lastScan =
        ((if decide (lastScan > (if sl then (-1 : Int) else lp))
          then [Endpoint.scanMeasurement] else []),
         ⟨MainState.LEAKCEHCK, false, sm0,
          if lastScan > (if sl then (-1 : Int) else lp) then lastScan
          else (if sl then (-1 : Int) else lp)⟩) := by
      unfold scanPullStep
      simp [pollScanBlock_inactive, pollScanBlock_active]
    rw [hstep]
    refine ⟨?_, rfl, rfl, ?_⟩
    · by_cases h : lastScan > (if sl then (-1 : Int) else lp) <;> simp [h]
    · rintro rfl
      simp only [if_neg (by simp : ¬ (false : Bool) = true)]
      by_cases h : lastScan > lp
      · simp only [if_pos h]
        omega
      · simp only [if_neg h]
        exact le_refl lp


/-- Witness for C5 at concrete inputs: entering MONITORING with a stale
last polled number 5 and observed scan number 3, the just entered flag
resets the comparison base to minus one, so the scan is fetched and the
last polled number becomes 3. -/
theorem scanPull_tick_witness :
    Endpoint.scanMeasurement ∈
      (scanPullStep ⟨MainState.MONITORING, false, true, 5⟩ 1 3).1 ∧
    (scanPullStep ⟨MainState.MONITORING, false, true, 5⟩ 1 3).2.lastPolledScan = 3 := by
  have h := (scanPull_tick ⟨MainState.MONITORING, false, true, 5⟩ 1 3 rfl).1 rfl
  exact ⟨h.1.mpr (by decide), (h.2.2.1).trans (by decide)⟩

end Inficon
